import Mathlib

/-!
Shallow embedding of the pygeoapi Kubernetes job manager and the papermill
notebook processor (src/pygeoapi/process/manager/kubernetes.py and
src/pygeoapi/process/notebook.py), together with theorems settling the
specification claims about them.

Python strings are modelled as Lean `String` (a wrapper around `List Char`),
python `None`-able values as `Option`, python dicts as association lists in
insertion order, and the kubernetes client model classes as structures whose
fields default to `none` exactly where the python constructors default to
`None`.  Effects (the current time, kubernetes API calls) are passed in as
explicit arguments.
-/

set_option autoImplicit false
set_option linter.unusedVariables false

namespace PygeoapiK8s

/-- Decidable equality of `Except` values, used to evaluate the embedded
manager operations on concrete inputs. -/
instance {ε α : Type} [DecidableEq ε] [DecidableEq α] : DecidableEq (Except ε α) := fun x y =>
  match x, y with
  | Except.ok a, Except.ok b => decidable_of_iff (a = b) (by simp)
  | Except.ok _, Except.error _ => Decidable.isFalse (by simp)
  | Except.error _, Except.ok _ => Decidable.isFalse (by simp)
  | Except.error e, Except.error f => decidable_of_iff (e = f) (by simp)

/-! ### Python string primitives -/

/-- Python `s.endswith(suffix)`. -/
def pyEndsWith (s suffixStr : String) : Bool :=
  List.isSuffixOf suffixStr.data s.data

/-- Auxiliary fold for `pySplit`: splits a character list at every occurrence
of `c`, keeping empty segments, as python `str.split` with an explicit
separator does. -/
def splitCharFold (c : Char) (s : List Char) : List (List Char) :=
  s.foldr
    (fun x acc =>
      if x = c then [] :: acc
      else
        match acc with
        | [] => [[x]]
        | h :: t => (x :: h) :: t)
    [[]]

/-- Python `s.split(c)` for a single-character separator: the result is always
non-empty and keeps empty segments (`"a::b".split(":") == ["a", "", "b"]`). -/
def pySplit (c : Char) (s : String) : List String :=
  (splitCharFold c s.data).map (fun l => String.mk l)

/-- Python `s.startswith(p)`. -/
def pyStartsWith (s p : String) : Bool :=
  List.isPrefixOf p.data s.data

/-- Python `{k: v for k, v in d.items() if v is not None}`
(`drop_none_values` in notebook.py). -/
def drop_none_values (d : List (String × Option String)) : List (String × String) :=
  d.filterMap (fun kv => kv.2.map (fun v => (kv.1, v)))

/-! ### `pathlib.PurePath` (POSIX flavour)

`PurePosixPath` internally stores a root flag and the list of non-empty,
non-`"."` components; `/` joining with a relative right operand appends
components, and `.parent` drops the last component (returning the path
itself when there is none).  That internal representation is used directly
here. -/

structure PurePath where
  absolute : Bool
  parts : List String
  deriving DecidableEq, Repr

/-- `PurePosixPath(s)` for a path string: absolute iff it starts with `/`;
components are the non-empty, non-`"."` segments between slashes. -/
def purePathOfString (s : String) : PurePath :=
  { absolute := pyStartsWith s "/"
    parts := (pySplit '/' s).filter (fun p => p ≠ "" ∧ p ≠ ".") }

/-- `PurePath.parent`: drop the final component (the path itself when there
is no component to drop, as in python). -/
def PurePath.parent (p : PurePath) : PurePath :=
  { p with parts := p.parts.dropLast }

/-- `PurePath.__truediv__` for a relative right operand (the only way it is
used in the source): append the components. -/
def PurePath.join (p q : PurePath) : PurePath :=
  { absolute := p.absolute, parts := p.parts ++ q.parts }

/-- `str(path)` for a `PurePosixPath`: `/`-joined components with a leading
slash when absolute; the empty relative path prints as `"."`. -/
def PurePath.str (p : PurePath) : String :=
  if p.absolute then "/" ++ String.intercalate "/" p.parts
  else if p.parts = [] then "." else String.intercalate "/" p.parts

/-! ### `urllib.parse.quote` -/

/-- Uppercase hexadecimal digit for a value below 16. -/
def hexDigitU (n : Nat) : Char :=
  if n < 10 then Char.ofNat (48 + n) else Char.ofNat (55 + n)

/-- Percent-encoding of one byte: `%XX` with uppercase hex, as
`urllib.parse.quote` emits. -/
def percentByte (b : Nat) : List Char :=
  ['%', hexDigitU (b / 16 % 16), hexDigitU (b % 16)]

/-- UTF-8 bytes of one unicode code point. -/
def utf8Bytes (n : Nat) : List Nat :=
  if n < 0x80 then [n]
  else if n < 0x800 then [0xC0 + n / 64, 0x80 + n % 64]
  else if n < 0x10000 then [0xE0 + n / 4096, 0x80 + n / 64 % 64, 0x80 + n % 64]
  else [0xF0 + n / 262144, 0x80 + n / 4096 % 64, 0x80 + n / 64 % 64, 0x80 + n % 64]

/-- Characters `urllib.parse.quote` leaves intact with the default
`safe="/"`: ASCII letters and digits, `_`, `.`, `-`, `~` and `/`. -/
def quoteSafeChar (c : Char) : Bool :=
  c.isAlpha || c.isDigit || c = '_' || c = '.' || c = '-' || c = '~' || c = '/'

/-- `urllib.parse.quote(s)` with the default safe set: safe characters are
kept, every other character is UTF-8 encoded and percent-escaped. -/
def pyQuote (s : String) : String :=
  String.mk
    ((s.data.map (fun c =>
      if quoteSafeChar c then [c]
      else ((utf8Bytes c.toNat).map percentByte).flatten)).flatten)

/-! ### Kubernetes client model values (only the fields the source sets) -/

structure V1PersistentVolumeClaimVolumeSource where
  claim_name : String
  deriving DecidableEq, Repr

structure V1EmptyDirVolumeSource where
  deriving DecidableEq, Repr

structure V1Volume where
  name : String
  persistent_volume_claim : Option V1PersistentVolumeClaimVolumeSource := none
  empty_dir : Option V1EmptyDirVolumeSource := none
  deriving DecidableEq, Repr

structure V1VolumeMount where
  mount_path : String
  name : String
  mount_propagation : Option String := none
  deriving DecidableEq, Repr

structure V1SecretKeySelector where
  name : String
  key : String
  deriving DecidableEq, Repr

structure V1EnvVarSource where
  secret_key_ref : V1SecretKeySelector
  deriving DecidableEq, Repr

structure V1EnvVar where
  name : String
  value : Option String := none
  value_from : Option V1EnvVarSource := none
  deriving DecidableEq, Repr

structure V1ResourceRequirements where
  limits : List (String × String)
  requests : List (String × String)
  deriving DecidableEq, Repr

structure V1SecurityContext where
  privileged : Bool
  deriving DecidableEq, Repr

structure V1Container where
  name : String
  image : String
  command : List String := []
  args : List String := []
  working_dir : Option String := none
  volume_mounts : List V1VolumeMount := []
  resources : V1ResourceRequirements
  env : List V1EnvVar := []
  security_context : Option V1SecurityContext := none
  deriving DecidableEq, Repr

structure V1NodeSelectorRequirement where
  key : String
  operator : String
  values : List String
  deriving DecidableEq, Repr

structure V1NodeSelectorTerm where
  match_expressions : List V1NodeSelectorRequirement
  deriving DecidableEq, Repr

structure V1NodeSelector where
  node_selector_terms : List V1NodeSelectorTerm
  deriving DecidableEq, Repr

structure V1NodeAffinity where
  required_during_scheduling_ignored_during_execution : V1NodeSelector
  deriving DecidableEq, Repr

structure V1Affinity where
  node_affinity : V1NodeAffinity
  deriving DecidableEq, Repr

structure V1Toleration where
  key : String
  operator : String
  effect : String
  deriving DecidableEq, Repr

structure V1LocalObjectReference where
  name : String
  deriving DecidableEq, Repr

structure V1PodSpec where
  restart_policy : String
  containers : List V1Container
  volumes : List V1Volume
  share_process_namespace : Bool
  affinity : Option V1Affinity := none
  tolerations : Option (List V1Toleration) := none
  image_pull_secrets : Option (List V1LocalObjectReference) := none
  deriving DecidableEq, Repr

/-! ### kubernetes.py: processor-side data types -/

/-- `KubernetesProcessor.S3BucketConfig` (kubernetes.py line 55). -/
structure S3BucketConfig where
  secret_name : String
  deriving DecidableEq, Repr

/-- `KubernetesProcessor.JobPodSpec` (kubernetes.py lines 59-63): the
three-field handoff value the manager's `_execute_handler_async` reads
(`job_pod_spec.pod_spec`, `job_pod_spec.result`,
`job_pod_spec.extra_annotations`). -/
structure JobPodSpec where
  pod_spec : V1PodSpec
  result : List (String × String)
  extra_annotations : List (String × String)
  deriving DecidableEq, Repr

/-! ### notebook.py: the papermill notebook processor -/

/-- `CONTAINER_HOME = PurePath("/home/jovyan")` (notebook.py line 106). -/
def CONTAINER_HOME : PurePath :=
  { absolute := true, parts := ["home", "jovyan"] }

/-- `working_dir` (notebook.py lines 230-236): resolve a relative notebook
path against `CONTAINER_HOME`, then take the parent directory. -/
def working_dir (notebook_path : PurePath) : PurePath :=
  (if notebook_path.absolute then notebook_path
   else CONTAINER_HOME.join notebook_path).parent

/-- The keyword arguments `gpu_extra_podspec` conditionally spreads into the
`V1PodSpec` constructor call: both fields absent for non-GPU jobs. -/
structure ExtraPodSpec where
  affinity : Option V1Affinity := none
  tolerations : Option (List V1Toleration) := none
  deriving DecidableEq, Repr

/-- `gpu_extra_podspec` (notebook.py lines 239-264). -/
def gpu_extra_podspec : ExtraPodSpec :=
  { affinity := some
      { node_affinity :=
        { required_during_scheduling_ignored_during_execution :=
          { node_selector_terms :=
            [{ match_expressions :=
               [{ key := "hub.eox.at/node-purpose"
                  operator := "In"
                  values := ["g2"] }] }] } } }
    tolerations := some
      [{ key := "hub.eox.at/gpu", operator := "Exists", effect := "NoSchedule" }] }

/-- `append_s3_config` (notebook.py lines 267-353), returned as the triple
(extra containers, extra volume mounts, extra volumes) it appends to the
lists passed in by `create_job_pod_spec`. -/
def append_s3_config (s3_bucket_config : S3BucketConfig) (s3_bucket_name : String) :
    List V1Container × List V1VolumeMount × List V1Volume :=
  let s3_user_bucket_volume_name := "s3-user-bucket"
  ([{ name := "s3mounter"
      image := "totycro/s3fs:0.4.0-1.86"
      args := ["sh", "-c",
        "echo \"`date` waiting for job start\"; sleep 5; echo \"`date` job start assumed\"; while pgrep -x papermill > /dev/null; do sleep 1; done; echo \"`date` job end detected\"; "]
      security_context := some { privileged := true }
      volume_mounts :=
        [{ name := s3_user_bucket_volume_name
           mount_path := "/opt/s3fs/bucket"
           mount_propagation := some "Bidirectional" }]
      resources :=
        { limits := [("cpu", "0.1"), ("memory", "128Mi")]
          requests := [("cpu", "0.05"), ("memory", "32Mi")] }
      env :=
        [{ name := "S3FS_ARGS", value := some "-oallow_other" },
         { name := "UID", value := some "1000" },
         { name := "GID", value := some "2014" },
         { name := "AWS_S3_ACCESS_KEY_ID"
           value_from := some { secret_key_ref :=
             { name := s3_bucket_config.secret_name, key := "username" } } },
         { name := "AWS_S3_SECRET_ACCESS_KEY"
           value_from := some { secret_key_ref :=
             { name := s3_bucket_config.secret_name, key := "password" } } },
         { name := "AWS_S3_BUCKET", value := some s3_bucket_name },
         { name := "TINI_SUBREAPER", value := some "1" },
         { name := "AWS_S3_URL",
           value := some "https://s3-eu-central-1.amazonaws.com" }] }],
   [{ mount_path := CONTAINER_HOME.str ++ "/s3"
      name := s3_user_bucket_volume_name
      mount_propagation := some "HostToContainer" }],
   [{ name := s3_user_bucket_volume_name
      empty_dir := some {} }])

/-- `re.sub(".ipynb$", "", s)` (notebook.py line 133): the regex `.` matches
any character except a newline, so a final six-character run `?ipynb` is
removed when present (`?` any non-newline character). -/
def stripIpynbEnd (s : String) : String :=
  if List.isSuffixOf "ipynb".data s.data ∧ 6 ≤ s.data.length
      ∧ s.data.getD (s.data.length - 6) ' ' ≠ '\n' then
    String.mk (s.data.take (s.data.length - 6))
  else s

/-- Output notebook naming (notebook.py lines 133-135), with the formatted
current time passed in explicitly. -/
def output_notebook_name (notebook_path now_formatted : String) : String :=
  stripIpynbEnd notebook_path ++ "_result_" ++ now_formatted ++ ".ipynb"

/-- The notebook container command (notebook.py lines 167-174). -/
def papermill_command (notebook_path output_notebook kernel parameters : String) :
    List String :=
  ["bash", "-c",
    "/opt/conda/envs/*/bin/papermill " ++ "\"" ++ notebook_path ++ "\" "
      ++ "\"" ++ output_notebook ++ "\" " ++ "-k " ++ kernel ++ " "
      ++ (if parameters ≠ "" then "-b \"" ++ parameters ++ "\" " else "")]

/-- One entry of the `extra_pvcs` configuration list named by the test suite
and the spec (`{claim_name, mount_path}`). -/
structure ExtraPvc where
  claim_name : String
  mount_path : String
  deriving DecidableEq, Repr

/-- The processor configuration mapping handed to the constructor (the shape
built by the test suite's `_create_processor`). -/
structure ProcessorDef where
  name : String
  s3_bucket_name : String
  default_image : String
  extra_pvcs : List ExtraPvc := []
  home_volume_claim_name : String := "user"
  image_pull_secret : String := ""
  jupyter_base_url : String := ""
  deriving DecidableEq, Repr

/-- `PapermillNotebookKubernetesProcessor` instance state: `__init__`
(notebook.py lines 110-113) stores only `default_image` and
`s3_bucket_name` from the configuration mapping. -/
structure PapermillNotebookKubernetesProcessor where
  default_image : String
  s3_bucket_name : String
  deriving DecidableEq, Repr

/-- `PapermillNotebookKubernetesProcessor.__init__` (notebook.py lines
110-113): reads exactly the `default_image` and `s3_bucket_name` keys of the
configuration; every other key is ignored. -/
def mkPapermillProcessor (processor_def : ProcessorDef) :
    PapermillNotebookKubernetesProcessor :=
  { default_image := processor_def.default_image
    s3_bucket_name := processor_def.s3_bucket_name }

/-- The result dictionary literal of notebook.py lines 210-223. -/
structure ResultDescriptor where
  result_type : String
  link : String
  deriving DecidableEq, Repr

/-- The `data` dict passed to `create_job_pod_spec`: `notebook` and
`parameters` are accessed unconditionally, the resource overrides through
`.get` (absent when not supplied). -/
structure NotebookData where
  notebook : String
  parameters : String
  cpu_limit : Option String := none
  mem_limit : Option String := none
  cpu_requests : Option String := none
  mem_requests : Option String := none
  deriving DecidableEq, Repr

/-- `PapermillNotebookKubernetesProcessor.create_job_pod_spec` (notebook.py
lines 115-224).  The current time string of line 134 is passed in as
`now_formatted`.  The python function returns the pair
`(V1PodSpec, result-dict)` of lines 200-224. -/
def create_job_pod_spec (self : PapermillNotebookKubernetesProcessor)
    (data : NotebookData) (user_uuid : String)
    (s3_bucket_config : Option S3BucketConfig) (now_formatted : String) :
    V1PodSpec × ResultDescriptor :=
  let notebook_path := data.notebook
  let parameters := data.parameters
  let job_name := "job-notebook"
  let image := self.default_image
  let is_gpu := pyEndsWith ((pySplit ':' image).headD "") "-g"
  let kernel := if is_gpu then "edc-gpu" else "edc"
  let output_notebook := output_notebook_name notebook_path now_formatted
  let extra_podspec := if is_gpu then gpu_extra_podspec else {}
  let resources : V1ResourceRequirements :=
    { limits := drop_none_values [("cpu", data.cpu_limit), ("memory", data.mem_limit)]
      requests :=
        drop_none_values [("cpu", data.cpu_requests), ("memory", data.mem_requests)] }
  let extras :=
    match s3_bucket_config with
    | some cfg => append_s3_config cfg self.s3_bucket_name
    | none => ([], [], [])
  let notebook_container : V1Container :=
    { name := job_name
      image := image
      command := papermill_command notebook_path output_notebook kernel parameters
      working_dir := some (working_dir (purePathOfString notebook_path)).str
      volume_mounts := [{ mount_path := CONTAINER_HOME.str, name := "home" }] ++ extras.2.1
      resources := resources
      env := [{ name := "JUPYTER_IMAGE", value := some image }] }
  let volumes : List V1Volume :=
    [{ name := "home"
       persistent_volume_claim := some { claim_name := "user" } }] ++ extras.2.2
  ({ restart_policy := "Never"
     containers := [notebook_container] ++ extras.1
     volumes := volumes
     share_process_namespace := true
     affinity := extra_podspec.affinity
     tolerations := extra_podspec.tolerations },
   { result_type := "link"
     link := "https://edc-jupyter.hub.eox.at/hub/user-redirect/lab/tree/"
       ++ pyQuote output_notebook })

/-! ### kubernetes.py: the Kubernetes job manager

Kubernetes API calls are effects; each manager operation is embedded as a
function of the outcome of the API call it makes, an
`Except ApiException _` value. -/

/-- `kubernetes.client.rest.ApiException`, as far as the source inspects it:
its HTTP status code. -/
structure ApiException where
  status : Nat
  deriving DecidableEq, Repr

/-- `HTTPStatus.NOT_FOUND`. -/
def HTTP_NOT_FOUND : Nat := 404

/-- Modelled from the spec: the host framework's job-status vocabulary
(`pygeoapi.util.JobStatus`, imported by kubernetes.py but not in src) is
exactly accepted, running, successful, failed. -/
inductive JobStatus where
  | accepted
  | running
  | successful
  | failed
  deriving DecidableEq, Repr

/-- Modelled from the spec: the string `.value` of each `JobStatus` member of
the host framework's enum is its own name. -/
def JobStatus.value : JobStatus → String
  | .accepted => "accepted"
  | .running => "running"
  | .successful => "successful"
  | .failed => "failed"

/-- Modelled from the spec: `DATETIME_FORMAT` and `datetime` live in the host
framework and the standard library, outside src; timestamps are modelled as
naturals (ordered as python datetimes are) and `strftime(DATETIME_FORMAT)`
as an injective rendering to a string. -/
def strftimeDatetimeFmt (t : Nat) : String := toString t

/-- `V1JobCondition`, as far as the source inspects it. -/
structure V1JobCondition where
  type : String
  status : String
  last_transition_time : Nat
  deriving DecidableEq, Repr

/-- `V1JobStatus`: the succeeded/failed/active pod counters (absent rather
than zero in the kubernetes API), the completion time and the conditions. -/
structure V1JobStatus where
  succeeded : Option Nat := none
  failed : Option Nat := none
  active : Option Nat := none
  completion_time : Option Nat := none
  conditions : List V1JobCondition := []
  deriving DecidableEq, Repr

/-- `V1ObjectMeta`, as far as the source inspects it (`annotations` is
`None` for an empty map in the kubernetes client; the list model folds that
into the empty list, matching the `or {}` on kubernetes.py line 389). -/
structure V1ObjectMeta where
  name : String
  annotations : List (String × String) := []
  deriving DecidableEq, Repr

/-- `V1Job`, as far as the source inspects it. -/
structure V1Job where
  metadata : V1ObjectMeta
  status : V1JobStatus
  deriving DecidableEq, Repr

/-- Python `d.get(k)` on a string-keyed dict modelled as an association
list. -/
def pyDictGet {α : Type} (d : List (String × α)) (k : String) : Option α :=
  (d.find? (fun kv => kv.1 == k)).map Prod.snd

/-- Python `{**a, **b}` for dicts in insertion order: `a`'s keys first (with
`b`'s value where `b` repeats a key), then `b`'s new keys. -/
def pyDictMerge {α : Type} (a b : List (String × α)) : List (String × α) :=
  a.map (fun kv => (kv.1, (pyDictGet b kv.1).getD kv.2))
    ++ b.filter (fun kv => ¬ (a.map Prod.fst).contains kv.1)

/-- `_ANNOTATIONS_PREFIX = "pygeoapi_"` (kubernetes.py line 350). -/
def ANNOTATIONS_PREFIX : String := "pygeoapi_"

/-- `parse_annotation_key` (kubernetes.py lines 353-355):
`re.match("^pygeoapi_(.+)", key)` anchors at the start, and the greedy
`(.+)` captures the longest non-empty run of non-newline characters after
the prefix (`re.match` does not require the whole key to be consumed). -/
def parse_annotation_key (key : String) : Option String :=
  if List.isPrefixOf ANNOTATIONS_PREFIX.data key.data then
    let g := (key.data.drop ANNOTATIONS_PREFIX.data.length).takeWhile (fun c => c ≠ '\n')
    if g = [] then none else some (String.mk g)
  else none

/-- `format_annotation_key` (kubernetes.py lines 358-359). -/
def format_annotation_key (key : String) : String :=
  ANNOTATIONS_PREFIX ++ key

/-- The annotation-formatting comprehension of kubernetes.py line 300:
`{format_annotation_key(k): v for k, v in annotations.items()}`. -/
def format_annotations (ann : List (String × String)) : List (String × String) :=
  ann.map (fun kv => (format_annotation_key kv.1, kv.2))

/-- The annotation-parsing comprehension of kubernetes.py lines 390-394:
keep the entries whose key parses (the walrus condition is also false for an
empty parsed key, which `parse_annotation_key` never produces). -/
def metadata_from_annotations (ann : List (String × String)) : List (String × String) :=
  ann.filterMap (fun kv => (parse_annotation_key kv.1).map (fun pk => (pk, kv.2)))

/-- `_JOB_NAME_PREFIX = "pygeoapi-job-"` (kubernetes.py line 362). -/
def JOB_NAME_PREFIX : String := "pygeoapi-job-"

/-- `k8s_job_name` (kubernetes.py lines 365-366). -/
def k8s_job_name (job_id : String) : String :=
  JOB_NAME_PREFIX ++ job_id

/-- `is_k8s_job_name` (kubernetes.py lines 369-370). -/
def is_k8s_job_name (job_name : String) : Bool :=
  pyStartsWith job_name JOB_NAME_PREFIX

/-- Python `x is not None and x > 0`, the guard used on each counter by
`job_status_from_k8s`. -/
def isNotNoneAndPos (x : Option Nat) : Bool :=
  match x with
  | some n => decide (0 < n)
  | none => false

/-- `job_status_from_k8s` (kubernetes.py lines 373-384): counters are
checked for `is not None` and `> 0`, in the order succeeded, failed,
active. -/
def job_status_from_k8s (status : V1JobStatus) : JobStatus :=
  if isNotNoneAndPos status.succeeded then JobStatus.successful
  else if isNotNoneAndPos status.failed then JobStatus.failed
  else if isNotNoneAndPos status.active then JobStatus.running
  else JobStatus.accepted

/-- `get_completion_time` (kubernetes.py lines 419-431): for failed jobs the
latest `"Failed"`/`"True"` condition transition time (absent when there is
none, like python `max(..., default=None)`); otherwise the job's own
completion time. -/
def get_completion_time (job : V1Job) (status : JobStatus) : Option Nat :=
  if status = JobStatus.failed then
    (job.status.conditions.filterMap (fun c =>
      if c.type = "Failed" ∧ c.status = "True" then some c.last_transition_time
      else none)).max?
  else
    job.status.completion_time

/-- `job_from_k8s` (kubernetes.py lines 387-416): merge the parsed
annotation metadata with the computed fields (python `{**a, **b}`); the
`process_end_datetime` value is `None` when there is no completion time, so
the values are `Option String`. -/
def job_from_k8s (job : V1Job) (message : Option String) :
    List (String × Option String) :=
  let annotations := job.metadata.annotations
  let metadata := metadata_from_annotations annotations
  let status := job_status_from_k8s job.status
  let completion_time := get_completion_time job status
  let computed_metadata : List (String × Option String) :=
    [("status", some status.value),
     ("message", some (message.getD "")),
     ("progress", some
       (match status with
        | JobStatus.accepted => "5"
        | JobStatus.running => "50"
        | _ => "100")),
     ("process_end_datetime", completion_time.map strftimeDatetimeFmt)]
  pyDictMerge (metadata.map (fun kv => (kv.1, some kv.2))) computed_metadata

/-- `raise NotImplementedError(msg)`, the only error the manager raises
itself. -/
inductive ManagerError where
  | notImplementedError (msg : String)
  deriving DecidableEq, Repr

/-- `KubernetesManager.get_jobs` (kubernetes.py lines 106-126), as a function
of the namespace's job list and of the per-job message extraction: filters by
the job-name convention and maps `job_from_k8s`; the `processid` and
`status` parameters are accepted and ignored (the status filter is a
`TODO`), and nothing is raised. -/
def get_jobs (k8s_jobs : List V1Job) (message : V1Job → Option String)
    (processid : Option String) (status : Option String) :
    Except ManagerError (List (List (String × Option String))) :=
  Except.ok
    ((k8s_jobs.filter (fun j => is_k8s_job_name j.metadata.name)).map
      (fun j => job_from_k8s j (message j)))

/-- `KubernetesManager.add_job` (kubernetes.py lines 149-158). -/
def add_job (job_metadata : List (String × String)) : Except ManagerError Unit :=
  Except.error
    (ManagerError.notImplementedError "For k8s, add_job is implied by executing the job")

/-- `KubernetesManager.update_job` (kubernetes.py lines 160-171). -/
def update_job (processid job_id : String) (update_dict : List (String × String)) :
    Except ManagerError Bool :=
  Except.error
    (ManagerError.notImplementedError "Currently there's no use case for updating k8s jobs")

/-- `KubernetesManager.delete_jobs` (kubernetes.py lines 226-231). -/
def delete_jobs (max_jobs older_than : Nat) : Except ManagerError Unit :=
  Except.error (ManagerError.notImplementedError "")

/-- `KubernetesManager.get_job_result` (kubernetes.py lines 128-147), as a
function of the `read_namespaced_job` outcome and of the message extraction:
a 404 `ApiException` becomes `None`, any other `ApiException` re-raises. -/
def get_job_result (readResult : Except ApiException V1Job)
    (message : Option String) :
    Except ApiException (Option (List (String × Option String))) :=
  match readResult with
  | Except.ok job => Except.ok (some (job_from_k8s job message))
  | Except.error e =>
    if e.status = HTTP_NOT_FOUND then Except.ok none else Except.error e

/-- `KubernetesManager.delete_job` (kubernetes.py lines 203-224), as a
function of the `delete_namespaced_job` outcome: success is `True`, a 404
`ApiException` is `False`, any other `ApiException` re-raises. -/
def delete_job (deleteResult : Except ApiException Unit) :
    Except ApiException Bool :=
  match deleteResult with
  | Except.ok _ => Except.ok true
  | Except.error e =>
    if e.status = HTTP_NOT_FOUND then Except.ok false else Except.error e

/-- `S3_BUCKET_SECRET_NAME = "s3-bucket"` (kubernetes.py line 51). -/
def S3_BUCKET_SECRET_NAME : String := "s3-bucket"

/-- `KubernetesManager._get_s3_bucket_config` (kubernetes.py lines 316-328),
as a function of the `read_namespaced_secret` outcome: found means an
`S3BucketConfig` naming the `s3-bucket` secret, a 404 `ApiException` means
no config, any other `ApiException` re-raises. -/
def get_s3_bucket_config (readSecret : Except ApiException Unit) :
    Except ApiException (Option S3BucketConfig) :=
  match readSecret with
  | Except.ok _ => Except.ok (some { secret_name := S3_BUCKET_SECRET_NAME })
  | Except.error e =>
    if e.status = HTTP_NOT_FOUND then Except.ok none else Except.error e

/-- The annotation assembly and result-type check of
`KubernetesManager._execute_handler_async` (kubernetes.py lines 278-292),
typed over the three-field `JobPodSpec` whose `pod_spec`, `result` and
`extra_annotations` attributes that handler reads: any `result_type` other
than `"link"` raises before any job is submitted. -/
def execute_handler_assemble (job_id start_datetime : String)
    (job_pod_spec : JobPodSpec) : Except String (List (String × String)) :=
  let annotations :=
    pyDictMerge
      [("identifier", job_id), ("process_start_datetime", start_datetime)]
      job_pod_spec.extra_annotations
  if pyDictGet job_pod_spec.result "result_type" = some "link" then
    Except.ok
      (format_annotations
        (annotations ++ [("result_link", (pyDictGet job_pod_spec.result "link").getD "")]))
  else
    Except.error "invalid result type"

/-! ## Theorems settling the claims -/

/-- C1: evaluating `PapermillNotebookKubernetesProcessor.create_job_pod_spec`
at a minimal execution request (the failing input of the handoff bug): the
concrete processor returns the python 2-tuple `(pod_spec, result-dict)` —
embedded as `V1PodSpec × ResultDescriptor` — whose second component is the
`{result_type: "link", link: <url>}` descriptor.  No `extra_annotations`
component exists, although `KubernetesManager._execute_handler_async`
(embedded as `execute_handler_assemble`) reads the three attributes
`pod_spec`, `result` and `extra_annotations` of the `JobPodSpec` dataclass
that the base-class contract declares as the return type. -/
theorem c1_handoff_is_pair_not_jobpodspec :
    (create_job_pod_spec
      (mkPapermillProcessor
        { name := "test", s3_bucket_name := "example", default_image := "example" })
      { notebook := "a", parameters := "" } "" none "TS").2 =
    { result_type := "link"
      link := "https://edc-jupyter.hub.eox.at/hub/user-redirect/lab/tree/a_result_TS.ipynb" } := by
  decide

/-- C2 counterexample: for the GPU image `"jupyter-user-g:1.2.3"` the tag —
the text after the last `:` — is `"1.2.3"`, which does not end with `-g`,
yet the pod built by `create_job_pod_spec` does carry the GPU node affinity
and toleration: the code keys GPU selection on the text before the first
`:`, not on the tag. -/
theorem c2_tag_rule_counterexample :
    (pySplit ':' "jupyter-user-g:1.2.3").getLastD "" = "1.2.3"
    ∧ pyEndsWith "1.2.3" "-g" = false
    ∧ (create_job_pod_spec
        (mkPapermillProcessor
          { name := "test", s3_bucket_name := "example",
            default_image := "jupyter-user-g:1.2.3" })
        { notebook := "a", parameters := "" } "" none "TS").1.affinity ≠ none
    ∧ (create_job_pod_spec
        (mkPapermillProcessor
          { name := "test", s3_bucket_name := "example",
            default_image := "jupyter-user-g:1.2.3" })
        { notebook := "a", parameters := "" } "" none "TS").1.tolerations ≠ none := by
  decide

/-- C2 (amended): for every image string, the pod built by
`create_job_pod_spec` carries the node affinity requiring label
`hub.eox.at/node-purpose ∈ {g2}` and the toleration for taint key
`hub.eox.at/gpu` (effect `NoSchedule`), and the primary container's command
selects the `edc-gpu` kernel, exactly when the text before the first `:` of
the image (the whole image string when it has no `:`) ends with `-g`; for
any other image the pod has no affinity and no tolerations and the command
selects kernel `edc`. -/
theorem c2_gpu_selection_by_image_name (P : PapermillNotebookKubernetesProcessor)
    (data : NotebookData) (uid : String) (s3 : Option S3BucketConfig) (now : String) :
    if pyEndsWith ((pySplit ':' P.default_image).headD "") "-g" then
      (create_job_pod_spec P data uid s3 now).1.affinity = some
          { node_affinity :=
            { required_during_scheduling_ignored_during_execution :=
              { node_selector_terms :=
                [{ match_expressions :=
                   [{ key := "hub.eox.at/node-purpose", operator := "In",
                      values := ["g2"] }] }] } } }
        ∧ (create_job_pod_spec P data uid s3 now).1.tolerations = some
            [{ key := "hub.eox.at/gpu", operator := "Exists", effect := "NoSchedule" }]
        ∧ ((create_job_pod_spec P data uid s3 now).1.containers.head?).map (fun c => c.command)
            = some (papermill_command data.notebook
                (output_notebook_name data.notebook now) "edc-gpu" data.parameters)
    else
      (create_job_pod_spec P data uid s3 now).1.affinity = none
        ∧ (create_job_pod_spec P data uid s3 now).1.tolerations = none
        ∧ ((create_job_pod_spec P data uid s3 now).1.containers.head?).map (fun c => c.command)
            = some (papermill_command data.notebook
                (output_notebook_name data.notebook now) "edc" data.parameters) := by
  cases h : pyEndsWith ((pySplit ':' P.default_image).headD "") "-g" <;>
    simp only [create_job_pod_spec, gpu_extra_podspec, h] <;> simp

/-- C3: a processor constructed with
`extra_pvcs = [{claim_name: "my_pvc", mount_path: "/mnt"}]` still produces a
pod whose only PersistentVolumeClaim-backed volume is the `"user"` home
claim — `__init__` stores only `default_image` and `s3_bucket_name`, so the
`extra_pvcs` configuration asserted by the repository's own test suite is
silently ignored and no volume named `"my_pvc"` appears. -/
theorem c3_extra_pvcs_not_mounted :
    ((create_job_pod_spec
      (mkPapermillProcessor
        { name := "test", s3_bucket_name := "example", default_image := "example",
          extra_pvcs := [{ claim_name := "my_pvc", mount_path := "/mnt" }] })
      { notebook := "a", parameters := "" } "" none "TS").1.volumes.filterMap
        (fun v => v.persistent_volume_claim)).map (fun c => c.claim_name) = ["user"] := by
  decide

/-- C4: a processor constructed with `image_pull_secret = "psrcr"` still
produces a pod with no image-pull-secrets at all (`None`, not a one-entry
list): the configuration key asserted by the repository's own test suite is
silently ignored. -/
theorem c4_image_pull_secrets_absent :
    (create_job_pod_spec
      (mkPapermillProcessor
        { name := "test", s3_bucket_name := "example", default_image := "example",
          image_pull_secret := "psrcr" })
      { notebook := "a", parameters := "" } "" none "TS").1.image_pull_secrets = none := by
  decide

/-- C5: `job_status_from_k8s` is the strict priority order successful >
failed > running > accepted over the three counters, each counter
independently absent or a count, with an absent counter acting as zero. -/
theorem c5_job_status_priority (st : V1JobStatus) :
    job_status_from_k8s st =
      (if 0 < st.succeeded.getD 0 then JobStatus.successful
       else if 0 < st.failed.getD 0 then JobStatus.failed
       else if 0 < st.active.getD 0 then JobStatus.running
       else JobStatus.accepted) := by
  rcases st with ⟨s, f, a, ct, cond⟩
  rcases s with _ | n <;> rcases f with _ | m <;> rcases a with _ | k <;>
    simp [job_status_from_k8s, isNotNoneAndPos]

/-- C6: a kubernetes API fault in `get_job_result`, `delete_job` or
`_get_s3_bucket_config` is handled locally (absent value / `False` / absent
config) precisely when its status is 404, and propagates unmodified
otherwise; on success `delete_job` returns `True` and
`_get_s3_bucket_config` an `S3BucketConfig` naming the `s3-bucket`
secret. -/
theorem c6_api_fault_policy (e : ApiException) (msg : Option String) :
    (get_job_result (Except.error e) msg = Except.ok none
        ∧ delete_job (Except.error e) = Except.ok false
        ∧ get_s3_bucket_config (Except.error e) = Except.ok none
      ↔ e.status = HTTP_NOT_FOUND)
    ∧ (get_job_result (Except.error e) msg = Except.error e
        ∧ delete_job (Except.error e) = Except.error e
        ∧ get_s3_bucket_config (Except.error e) = Except.error e
      ↔ e.status ≠ HTTP_NOT_FOUND)
    ∧ delete_job (Except.ok ()) = Except.ok true
    ∧ get_s3_bucket_config (Except.ok ()) = Except.ok (some { secret_name := "s3-bucket" }) := by
  by_cases h : e.status = HTTP_NOT_FOUND <;>
    simp [get_job_result, delete_job, get_s3_bucket_config, h, S3_BUCKET_SECRET_NAME]

/-- C7 counterexample: `get_jobs` invoked with a non-absent `status`
argument does not fail — it silently returns the unfiltered job list (the
status filter is an unimplemented `TODO`), here on a one-job namespace. -/
theorem c7_get_jobs_status_silently_ignored :
    get_jobs
      [{ metadata := { name := "pygeoapi-job-1" }, status := { active := some 1 } }]
      (fun _ => none) none (some "failed") =
    Except.ok
      [[("status", some "running"), ("message", some ""), ("progress", some "50"),
        ("process_end_datetime", none)]] := by
  decide

/-- C7 (amended): `add_job`, `update_job` and `delete_jobs` fail immediately
and explicitly with `NotImplementedError` on every input, but `get_jobs`
accepts the `processid` and `status` arguments and ignores them, returning
the unfiltered (name-convention-filtered only) job list instead of
failing. -/
theorem c7_unsupported_operations (job_metadata : List (String × String))
    (pid jid : String) (upd : List (String × String)) (mx ot : Nat)
    (jobs : List V1Job) (message : V1Job → Option String)
    (processid status : Option String) :
    (∃ m, add_job job_metadata = Except.error (ManagerError.notImplementedError m))
    ∧ (∃ m, update_job pid jid upd = Except.error (ManagerError.notImplementedError m))
    ∧ (∃ m, delete_jobs mx ot = Except.error (ManagerError.notImplementedError m))
    ∧ get_jobs jobs message processid status = get_jobs jobs message none none
    ∧ (∃ l, get_jobs jobs message processid status = Except.ok l) :=
  ⟨⟨_, rfl⟩, ⟨_, rfl⟩, ⟨_, rfl⟩, rfl, ⟨_, rfl⟩⟩

/-- C8 counterexample: the round trip loses the empty key — formatting `""`
gives the bare prefix `"pygeoapi_"`, whose parse fails (the regex group
`(.+)` needs at least one character), so a map holding key `""` is not
recovered. -/
theorem c8_empty_key_lost :
    parse_annotation_key (format_annotation_key "") ≠ some ""
    ∧ metadata_from_annotations (format_annotations [("", "v")]) ≠ [("", "v")] := by
  decide

/-- Parsing a formatted key recovers the key whenever the key is non-empty
and newline-free (the regex `.` never matches a newline). -/
theorem parse_format_annotation_key_of_ne (k : String) (hne : k.data ≠ [])
    (hnl : '\n' ∉ k.data) :
    parse_annotation_key (format_annotation_key k) = some k := by
  have hdata : (format_annotation_key k).data = ANNOTATIONS_PREFIX.data ++ k.data := by
    simp [format_annotation_key, String.data_append]
  unfold parse_annotation_key
  rw [hdata]
  rw [if_pos (by simp)]
  have hdrop : (ANNOTATIONS_PREFIX.data ++ k.data).drop ANNOTATIONS_PREFIX.data.length
      = k.data := List.drop_left _ _
  rw [hdrop]
  have htake : k.data.takeWhile (fun c => c ≠ '\n') = k.data := by
    rw [List.takeWhile_eq_self_iff]
    intro a ha
    simp only [ne_eq, decide_eq_true_eq]
    intro hc
    exact hnl (hc ▸ ha)
  rw [htake, if_neg hne]

/-- C8 (amended): for every domain key/value map whose keys are non-empty
and contain no newline character, formatting every key with
`format_annotation_key` and parsing the resulting annotation map with
`parse_annotation_key` (keeping only the keys that parse, as `job_from_k8s`
does) recovers exactly the original map. -/
theorem c8_annotation_roundtrip (m : List (String × String))
    (h : ∀ kv ∈ m, kv.1.data ≠ [] ∧ '\n' ∉ kv.1.data) :
    metadata_from_annotations (format_annotations m) = m := by
  induction m with
  | nil => rfl
  | cons kv t ih =>
    have hkv := h kv (List.mem_cons_self kv t)
    have hkey := parse_format_annotation_key_of_ne kv.1 hkv.1 hkv.2
    simp only [format_annotations, List.map_cons, metadata_from_annotations,
      List.filterMap_cons, hkey]
    have ht := ih (fun x hx => h x (List.mem_cons_of_mem kv hx))
    simp only [metadata_from_annotations, format_annotations] at ht
    rw [ht]
    simp

/-- C8 witness: the round trip at a concrete two-entry map with non-empty,
newline-free keys. -/
theorem c8_annotation_roundtrip_witness :
    (∀ kv ∈ ([("identifier", "job-1"), ("result_link", "https://x")] :
        List (String × String)), kv.1.data ≠ [] ∧ '\n' ∉ kv.1.data)
    ∧ metadata_from_annotations
        (format_annotations [("identifier", "job-1"), ("result_link", "https://x")])
      = [("identifier", "job-1"), ("result_link", "https://x")] :=
  ⟨by decide, c8_annotation_roundtrip _ (by decide)⟩

/-- C9: `working_dir` takes the parent of the notebook path itself when the
path is absolute (no home prefix applied), and the parent of the path
resolved against `/home/jovyan` when it is relative; the primary container's
working directory is this value rendered as a string. -/
theorem c9_working_dir_resolution (p : PurePath)
    (P : PapermillNotebookKubernetesProcessor) (data : NotebookData)
    (uid : String) (s3 : Option S3BucketConfig) (now : String) :
    (p.absolute = true → working_dir p = { absolute := true, parts := p.parts.dropLast })
    ∧ (p.absolute = false → p.parts ≠ [] →
        working_dir p = { absolute := true, parts := ["home", "jovyan"] ++ p.parts.dropLast })
    ∧ ((create_job_pod_spec P data uid s3 now).1.containers.head?).map (fun c => c.working_dir)
        = some (some (working_dir (purePathOfString data.notebook)).str) := by
  refine ⟨?_, ?_, rfl⟩
  · intro h
    simp [working_dir, h, PurePath.parent]
  · intro h hne
    simp [working_dir, h, PurePath.parent, PurePath.join, CONTAINER_HOME,
      List.dropLast_cons_of_ne_nil hne]

/-- C9 witness: the relative path `a/b/a.ipynb` resolves to working
directory `/home/jovyan/a/b`, and the absolute path `/c/d.ipynb` to `/c`. -/
theorem c9_working_dir_witness :
    working_dir { absolute := false, parts := ["a", "b", "a.ipynb"] }
      = { absolute := true, parts := ["home", "jovyan", "a", "b"] }
    ∧ working_dir { absolute := true, parts := ["c", "d.ipynb"] }
      = { absolute := true, parts := ["c"] } := by
  constructor
  · have h := (c9_working_dir_resolution
      { absolute := false, parts := ["a", "b", "a.ipynb"] }
      { default_image := "example", s3_bucket_name := "example" }
      { notebook := "a", parameters := "" } "" none "TS").2.1 rfl (by decide)
    simpa using h
  · have h := (c9_working_dir_resolution
      { absolute := true, parts := ["c", "d.ipynb"] }
      { default_image := "example", s3_bucket_name := "example" }
      { notebook := "a", parameters := "" } "" none "TS").1 rfl
    simpa using h

/-- C10: every pod specification built by `create_job_pod_spec` sets
`share_process_namespace` to `True`, for every configuration and input —
also when no `S3BucketConfig` is supplied and no sidecar is present. -/
theorem c10_share_process_namespace_always
    (P : PapermillNotebookKubernetesProcessor) (data : NotebookData)
    (uid : String) (s3 : Option S3BucketConfig) (now : String) :
    (create_job_pod_spec P data uid s3 now).1.share_process_namespace = true := rfl

end PygeoapiK8s
